import Mathlib

/-!
Shallow embedding of the VantraOrbit solar-system animation core
(`src/js/solar-system.js`), covering the orbital/rotation kinematics of
`SolarSystem.animate`, the moon's parent-relative update, Saturn ring
segment rotation, the pause gate, camera-follow interpolation, the speed
slider handler, and the texture-load callbacks of `loadPlanet` /
`createMoon`.

Numbers are modelled over an arbitrary linear ordered field `R`
(instantiated with `ℝ` in the theorems); `Math.cos` / `Math.sin` are the
two components of a `Trig` record, instantiated with `Real.cos` /
`Real.sin`.  JavaScript objects mutated in place become explicit state
records, and the in-place `forEach` over `this.planets` becomes a
recursion carrying the already-updated prefix, so that the mid-loop
`this.planets.find(...)` lookup sees exactly what the JS code sees.
-/

namespace VantraOrbit

/-- A 3-component vector, standing for a THREE.Vector3 position. -/
@[ext]
structure Vec3 (R : Type) where
  x : R
  y : R
  z : R
  deriving DecidableEq, Repr

/-- The trigonometric primitives used by the animation (`Math.cos`, `Math.sin`). -/
structure Trig (R : Type) where
  cost : R → R
  sint : R → R

/-- One animated body of `this.planets`: the `userData` fields set by
`loadPlanet` / `createMoon` (`name`, `distance`, `orbitSpeed`,
`rotationSpeed`, `angle`, `parentPlanet`) together with the mesh state the
animation loop mutates (`position`, `rotation.y`) and the material choice
made by the load callback (`fallbackColor = none` means textured). -/
structure Body (R : Type) where
  name : String
  parentPlanet : Option String
  distance : R
  orbitSpeed : R
  rotationSpeed : R
  angle : R
  position : Vec3 R
  rotationY : R
  fallbackColor : Option Nat
  deriving DecidableEq, Repr

variable {R : Type} [LinearOrderedField R]

/-- `this.planets.find(p => p.userData.name === nm)`. -/
def findByName (nm : String) (l : List (Body R)) : Option (Body R) :=
  l.find? (fun p => p.name == nm)

/-- The per-body block of `SolarSystem.animate` (solar-system.js lines
1093-1113): the moon branch (`data.parentPlanet === 'Earth'`) looks Earth up
in the current array and orbits it, the regular branch
(`data.name !== 'Moon'`) orbits the origin, and every body then spins by
`rotationSpeed × animationSpeed`.  `arr` is the state of `this.planets` at
the moment this body is processed. -/
def stepBody (T : Trig R) (speed : R) (arr : List (Body R)) (b : Body R) : Body R :=
  if b.parentPlanet = some "Earth" then
    match findByName "Earth" arr with
    | some earth =>
      { b with
        angle := b.angle + b.orbitSpeed * speed
        position :=
          ⟨earth.position.x + T.cost (b.angle + b.orbitSpeed * speed) * b.distance,
           earth.position.y,
           earth.position.z + T.sint (b.angle + b.orbitSpeed * speed) * b.distance⟩
        rotationY := b.rotationY + b.rotationSpeed * speed }
    | none => { b with rotationY := b.rotationY + b.rotationSpeed * speed }
  else if b.name = "Moon" then
    { b with rotationY := b.rotationY + b.rotationSpeed * speed }
  else
    { b with
      angle := b.angle + b.orbitSpeed * speed
      position :=
        ⟨T.cost (b.angle + b.orbitSpeed * speed) * b.distance,
         b.position.y,
         T.sint (b.angle + b.orbitSpeed * speed) * b.distance⟩
      rotationY := b.rotationY + b.rotationSpeed * speed }

/-- The in-place `this.planets.forEach` of `SolarSystem.animate`: `done` is
the already-updated prefix of the array, the second list the not yet
visited suffix; each body is stepped against the array as it stands when
the callback runs on it. -/
def animateLoop (T : Trig R) (speed : R) : List (Body R) → List (Body R) → List (Body R)
  | done, [] => done
  | done, b :: rest =>
    animateLoop T speed (done ++ [stepBody T speed (done ++ b :: rest) b]) rest

/-- One Saturn ring segment mesh: its `rotation.z` and the
`userData.rotationSpeed` stored by `create3DRingSegment`. -/
structure RingSeg (R : Type) where
  rotZ : R
  rotationSpeed : R
  deriving DecidableEq, Repr

/-- The ring-mesh branch of the Saturn block in `SolarSystem.animate`
(line 1141): guarded by the JS truthiness test
`ring.userData.rotationSpeed` (a zero speed is skipped), then
`ring.rotation.z += ring.userData.rotationSpeed * this.animationSpeed`. -/
def stepRing (speed : R) (r : RingSeg R) : RingSeg R :=
  if r.rotationSpeed = 0 then r
  else { r with rotZ := r.rotZ + r.rotationSpeed * speed }

/-- All ring segments stepped once (the `this.saturnRings.forEach`). -/
def stepRings (speed : R) (rs : List (RingSeg R)) : List (RingSeg R) :=
  rs.map (stepRing speed)

/-- Componentwise vector addition (`Vector3.add`). -/
def vadd (a b : Vec3 R) : Vec3 R :=
  ⟨a.x + b.x, a.y + b.y, a.z + b.z⟩

/-- `Vector3.lerp(target, t)`: move each component a fraction `t` of the way
toward `target`. -/
def lerpVec (a b : Vec3 R) (t : R) : Vec3 R :=
  ⟨a.x + (b.x - a.x) * t, a.y + (b.y - a.y) * t, a.z + (b.z - a.z) * t⟩

/-- The fixed camera offset `new THREE.Vector3(50, 30, 50)` of the
camera-follow block. -/
def followOffset (R : Type) [LinearOrderedField R] : Vec3 R :=
  ⟨50, 30, 50⟩

/-- The camera-follow block of `SolarSystem.animate` (lines 1183-1189):
`camera.position.lerp(target.position + (50,30,50), 0.05)`. -/
def cameraFollowStep (target cam : Vec3 R) : Vec3 R :=
  lerpVec cam (vadd target (followOffset R)) (5 / 100)

/-- Squared Euclidean distance between two positions. -/
def distSq (a b : Vec3 R) : R :=
  (a.x - b.x) ^ 2 + (a.y - b.y) ^ 2 + (a.z - b.z) ^ 2

/-- The mutable state of a `SolarSystem` instance that the animation
callback touches. -/
structure SolarSystemState (R : Type) where
  planets : List (Body R)
  saturnRings : List (RingSeg R)
  animationSpeed : R
  isPaused : Bool
  followTarget : Option String
  cameraPos : Vec3 R
  sunRotY : R
  renderCount : Nat
  deriving DecidableEq, Repr

/-- One invocation of the `SolarSystem.animate` callback: if `isPaused` it
returns at once (before any update and before the render call); otherwise
it updates every planet in array order, steps the Saturn rings once per
planet named `"Saturn"`, spins the sun, lerps the camera toward the follow
target's updated position plus the fixed offset, and finally renders
(counted by `renderCount`). -/
def animateTick (T : Trig R) (s : SolarSystemState R) : SolarSystemState R :=
  if s.isPaused then s
  else
    { s with
      planets := animateLoop T s.animationSpeed [] s.planets
      saturnRings :=
        s.planets.foldl
          (fun rs p => if p.name = "Saturn" then stepRings s.animationSpeed rs else rs)
          s.saturnRings
      sunRotY := s.sunRotY + 5 / 1000 * s.animationSpeed
      cameraPos :=
        match s.followTarget with
        | some nm =>
          match findByName nm (animateLoop T s.animationSpeed [] s.planets) with
          | some t => cameraFollowStep t.position s.cameraPos
          | none => s.cameraPos
        | none => s.cameraPos
      renderCount := s.renderCount + 1 }

/-- The speed-slider `input` handler of `SolarSystem.setupUI`
(lines 1022-1026): `this.animationSpeed = parseFloat(e.target.value)`,
stored with no validation. -/
def handleSpeedInput (s : SolarSystemState R) (v : R) : SolarSystemState R :=
  { s with animationSpeed := v }

/-- `this.planets.push(body)`: registration appends unconditionally. -/
def registerBody (planets : List (Body R)) (b : Body R) : List (Body R) :=
  planets ++ [b]

/-- Outcome of an asynchronous `TextureLoader.load` call. -/
inductive LoadResult where
  | success
  | failure
  deriving DecidableEq, Repr

/-- The `fallbackColors` table of `SolarSystem.loadPlanet`
(lines 747-756), with the `|| 0x888888` default. -/
def fallbackColors (name : String) : Nat :=
  if name = "Mercury" then 0x8C7853
  else if name = "Venus" then 0xFFC649
  else if name = "Earth" then 0x6B93D6
  else if name = "Mars" then 0xCD5C5C
  else if name = "Jupiter" then 0xF4A460
  else if name = "Saturn" then 0xFAD5A5
  else if name = "Uranus" then 0x4FD0E7
  else if name = "Neptune" then 0x4169E1
  else 0x888888

/-- The two `TextureLoader.load` callbacks of `SolarSystem.loadPlanet`:
both the success path and the error path build the planet (the latter with
the documented fallback color), set `position = (distance, 0, 0)`, give it
a pseudo-random starting `angle` (passed here as `randAngle`), and push it
onto `this.planets`. -/
def loadPlanet (R : Type) [LinearOrderedField R] (res : LoadResult) (name : String)
    (distance orbitSpeed rotationSpeed randAngle : R)
    (planets : List (Body R)) : List (Body R) :=
  match res with
  | .success =>
    registerBody planets
      { name := name, parentPlanet := none, distance := distance,
        orbitSpeed := orbitSpeed, rotationSpeed := rotationSpeed,
        angle := randAngle, position := ⟨distance, 0, 0⟩, rotationY := 0,
        fallbackColor := none }
  | .failure =>
    registerBody planets
      { name := name, parentPlanet := none, distance := distance,
        orbitSpeed := orbitSpeed, rotationSpeed := rotationSpeed,
        angle := randAngle, position := ⟨distance, 0, 0⟩, rotationY := 0,
        fallbackColor := some (fallbackColors name) }

/-- The moon body built by the success callback of `SolarSystem.createMoon`
(lines 361-381): `distance 8`, `orbitSpeed 0.036`, `rotationSpeed 0.0036`,
`angle 0`, `parentPlanet 'Earth'`; its mesh position is left at the
`THREE.Mesh` default `(0, 0, 0)`. -/
def moonBody (R : Type) [LinearOrderedField R] : Body R :=
  { name := "Moon", parentPlanet := some "Earth", distance := 8,
    orbitSpeed := 36 / 1000, rotationSpeed := 36 / 10000, angle := 0,
    position := ⟨0, 0, 0⟩, rotationY := 0, fallbackColor := none }

/-- The two `TextureLoader.load` callbacks of `SolarSystem.createMoon`: on
success the moon is built and pushed onto `this.planets`; the error
callback (lines 388-390) only logs `'Failed to load Moon texture'` and
constructs nothing. -/
def createMoon (R : Type) [LinearOrderedField R] (res : LoadResult)
    (planets : List (Body R)) : List (Body R) :=
  match res with
  | .success => registerBody planets (moonBody R)
  | .failure => planets

/-! ### Basic facts about the per-body step -/

theorem stepBody_name (T : Trig R) (s : R) (arr : List (Body R)) (b : Body R) :
    (stepBody T s arr b).name = b.name := by
  unfold stepBody
  split
  · split <;> rfl
  · split <;> rfl

theorem stepBody_rotationY (T : Trig R) (s : R) (arr : List (Body R)) (b : Body R) :
    (stepBody T s arr b).rotationY = b.rotationY + b.rotationSpeed * s := by
  unfold stepBody
  split
  · split <;> rfl
  · split <;> rfl

/-- On a star-orbiting body (not Earth-parented, not named `"Moon"`) the
step does not consult the array: the phase advances by
`orbitSpeed × speed` and the position is rewritten from the new phase. -/
theorem stepBody_star (T : Trig R) (s : R) (arr : List (Body R)) (b : Body R)
    (hp : b.parentPlanet ≠ some "Earth") (hn : b.name ≠ "Moon") :
    stepBody T s arr b =
      { b with
        angle := b.angle + b.orbitSpeed * s
        position :=
          ⟨T.cost (b.angle + b.orbitSpeed * s) * b.distance,
           b.position.y,
           T.sint (b.angle + b.orbitSpeed * s) * b.distance⟩
        rotationY := b.rotationY + b.rotationSpeed * s } := by
  unfold stepBody
  rw [if_neg hp, if_neg hn]

/-- On an Earth-parented body whose lookup finds `e`, the step orbits `e`. -/
theorem stepBody_moon (T : Trig R) (s : R) (arr : List (Body R)) (b : Body R)
    (hm : b.parentPlanet = some "Earth") (e : Body R)
    (hfind : findByName "Earth" arr = some e) :
    stepBody T s arr b =
      { b with
        angle := b.angle + b.orbitSpeed * s
        position :=
          ⟨e.position.x + T.cost (b.angle + b.orbitSpeed * s) * b.distance,
           e.position.y,
           e.position.z + T.sint (b.angle + b.orbitSpeed * s) * b.distance⟩
        rotationY := b.rotationY + b.rotationSpeed * s } := by
  unfold stepBody
  rw [if_pos hm, hfind]

theorem findByName_append (nm : String) (l₁ l₂ : List (Body R)) :
    findByName nm (l₁ ++ l₂) =
      ((findByName nm l₁).rec (findByName nm l₂) fun b => some b) := by
  unfold findByName
  induction l₁ with
  | nil => simp
  | cons b t ih =>
    by_cases hb : b.name == nm
    · simp [List.find?, hb]
    · simpa [List.find?, hb] using ih

theorem findByName_none (l : List (Body R)) (h : ∀ b ∈ l, b.name ≠ "Earth") :
    findByName "Earth" l = none := by
  unfold findByName
  rw [List.find?_eq_none]
  intro b hb
  simpa using h b hb

/-! ### Structure of the update loop -/

/-- Processing a segment of the array only appends updated bodies (with the
same names, in order) to the already-updated prefix. -/
theorem animateLoop_segment (T : Trig R) (s : R) :
    ∀ (seg done rest : List (Body R)),
      ∃ u, animateLoop T s done (seg ++ rest) = animateLoop T s (done ++ u) rest ∧
        u.map Body.name = seg.map Body.name := by
  intro seg
  induction seg with
  | nil =>
    intro done rest
    exact ⟨[], by simp, by simp⟩
  | cons b t ih =>
    intro done rest
    obtain ⟨u, hu, hnames⟩ :=
      ih (done ++ [stepBody T s (done ++ (b :: (t ++ rest))) b]) rest
    refine ⟨stepBody T s (done ++ (b :: (t ++ rest))) b :: u, ?_, ?_⟩
    · rw [List.cons_append, animateLoop, hu, List.append_assoc]
      rfl
    · simp [hnames, stepBody_name]

/-- The whole loop appends the updated bodies after the prefix it was
started with, preserving names in order. -/
theorem animateLoop_done_part (T : Trig R) (s : R) (l done : List (Body R)) :
    ∃ u, animateLoop T s done l = done ++ u ∧ u.map Body.name = l.map Body.name := by
  obtain ⟨u, hu, hnames⟩ := animateLoop_segment T s l done []
  exact ⟨u, by simpa [animateLoop] using hu, hnames⟩

/-- Iterating the per-body step on a star-orbiting body: the kinematic
parameters are constant, the phase and the spin accumulate linearly, the
`y` coordinate is never written, and from the first tick on the position is
the trigonometric image of the current phase. -/
theorem stepBody_star_iterate (T : Trig R) (s : R) (arr : List (Body R)) (b : Body R)
    (hp : b.parentPlanet ≠ some "Earth") (hn : b.name ≠ "Moon") :
    ∀ n : ℕ,
      ((stepBody T s arr)^[n] b).parentPlanet = b.parentPlanet ∧
      ((stepBody T s arr)^[n] b).name = b.name ∧
      ((stepBody T s arr)^[n] b).orbitSpeed = b.orbitSpeed ∧
      ((stepBody T s arr)^[n] b).rotationSpeed = b.rotationSpeed ∧
      ((stepBody T s arr)^[n] b).distance = b.distance ∧
      ((stepBody T s arr)^[n] b).angle = b.angle + n * (b.orbitSpeed * s) ∧
      ((stepBody T s arr)^[n] b).position.y = b.position.y ∧
      ((stepBody T s arr)^[n] b).rotationY = b.rotationY + n * (b.rotationSpeed * s) ∧
      (0 < n →
        ((stepBody T s arr)^[n] b).position.x =
          T.cost (((stepBody T s arr)^[n] b).angle) * b.distance ∧
        ((stepBody T s arr)^[n] b).position.z =
          T.sint (((stepBody T s arr)^[n] b).angle) * b.distance) := by
  intro n
  induction n with
  | zero => simp
  | succ n ih =>
    obtain ⟨hpp, hnm, hos, hrs, hd, ha, hy, hr, -⟩ := ih
    rw [Function.iterate_succ_apply',
      stepBody_star T s arr _ (hpp ▸ hp) (hnm ▸ hn)]
    refine ⟨hpp, hnm, hos, hrs, hd, ?_, hy, ?_, fun _ => ⟨?_, ?_⟩⟩
    · rw [ha, hos]
      push_cast
      ring
    · rw [hr, hrs]
      push_cast
      ring
    · rw [hd]
    · rw [hd]

/-! ### The frozen state at `timeScale = 0` -/

/-- A star-orbiting body whose stored position agrees with its phase (as it
does after any tick of the loop has written it). -/
def starConsistent (T : Trig R) (b : Body R) : Prop :=
  b.position.x = T.cost b.angle * b.distance ∧
  b.position.z = T.sint b.angle * b.distance

/-- An Earth-parented body whose stored position agrees with its phase and
with the Earth entry its lookup in `l` finds. -/
def moonConsistent (T : Trig R) (l : List (Body R)) (b : Body R) : Prop :=
  match findByName "Earth" l with
  | some e =>
    b.position =
      ⟨e.position.x + T.cost b.angle * b.distance,
       e.position.y,
       e.position.z + T.sint b.angle * b.distance⟩
  | none => True

/-- With `speed = 0` the step fixes any body that is consistent with the
array it is stepped against. -/
theorem stepBody_zero_fixed (T : Trig R) (l : List (Body R)) (b : Body R)
    (hstar : b.parentPlanet ≠ some "Earth" → b.name ≠ "Moon" → starConsistent T b)
    (hmoon : b.parentPlanet = some "Earth" → moonConsistent T l b) :
    stepBody T 0 l b = b := by
  by_cases hp : b.parentPlanet = some "Earth"
  · have hm := hmoon hp
    unfold moonConsistent at hm
    rcases hfind : findByName "Earth" l with - | e
    · unfold stepBody
      rw [if_pos hp, hfind]
      simp
    · rw [hfind] at hm
      rw [stepBody_moon T 0 l b hp e hfind]
      obtain ⟨bn, bpp, bd, bos, brs, ba, bpos, brY, bfc⟩ := b
      simp only [mul_zero, add_zero]
      simp only at hm
      simp [hm]
  · by_cases hn : b.name = "Moon"
    · unfold stepBody
      rw [if_neg hp, if_pos hn]
      simp
    · obtain ⟨hx, hz⟩ := hstar hp hn
      rw [stepBody_star T 0 l b hp hn]
      obtain ⟨bn, bpp, bd, bos, brs, ba, ⟨px, py, pz⟩, brY, bfc⟩ := b
      simp only [mul_zero, add_zero]
      simp only at hx hz
      simp [hx, hz]

/-- With `speed = 0`, if every body of the list is consistent, the whole
loop returns the list unchanged. -/
theorem animateLoop_zero_id (T : Trig R) (l : List (Body R))
    (hc : ∀ b ∈ l,
      (b.parentPlanet ≠ some "Earth" → b.name ≠ "Moon" → starConsistent T b) ∧
      (b.parentPlanet = some "Earth" → moonConsistent T l b)) :
    animateLoop T 0 [] l = l := by
  suffices h : ∀ todo done, done ++ todo = l → animateLoop T 0 done todo = l by
    simpa using h l [] (by simp)
  intro todo
  induction todo with
  | nil =>
    intro done h'
    simpa [animateLoop] using h'
  | cons b rest ih =>
    intro done h'
    have hb : b ∈ l := h' ▸ List.mem_append_right done (List.mem_cons_self b rest)
    have hfix : stepBody T 0 (done ++ b :: rest) b = b := by
      rw [h']
      exact stepBody_zero_fixed T l b (hc b hb).1 (hc b hb).2
    rw [animateLoop, hfix]
    exact ih (done ++ [b]) (by simpa using h')

/-- With `speed = 0` every phase angle in the list is unchanged (no
consistency needed). -/
theorem stepBody_zero_angle (T : Trig R) (arr : List (Body R)) (b : Body R) :
    (stepBody T 0 arr b).angle = b.angle := by
  unfold stepBody
  split
  · split <;> simp
  · split <;> simp

theorem animateLoop_zero_angles (T : Trig R) :
    ∀ (todo done : List (Body R)),
      (animateLoop T 0 done todo).map Body.angle =
        done.map Body.angle ++ todo.map Body.angle := by
  intro todo
  induction todo with
  | nil => intro done; simp [animateLoop]
  | cons b rest ih =>
    intro done
    rw [animateLoop, ih]
    simp [stepBody_zero_angle]

theorem animateLoop_zero_rotations (T : Trig R) :
    ∀ (todo done : List (Body R)),
      (animateLoop T 0 done todo).map Body.rotationY =
        done.map Body.rotationY ++ todo.map Body.rotationY := by
  intro todo
  induction todo with
  | nil => intro done; simp [animateLoop]
  | cons b rest ih =>
    intro done
    rw [animateLoop, ih]
    simp [stepBody_rotationY]

/-! ### Concrete bodies used to instantiate the claims -/

/-- The spec's end-to-end scenario body: radius 100, orbital speed 0.01,
initial phase 0, created like a planet (position `(distance, 0, 0)`). -/
def c1Body (R : Type) [LinearOrderedField R] : Body R :=
  { name := "Probe", parentPlanet := none, distance := 100, orbitSpeed := 1 / 100,
    rotationSpeed := 0, angle := 0, position := ⟨100, 0, 0⟩, rotationY := 0,
    fallbackColor := none }

/-- A star-orbiting body whose per-tick phase increment (7 rad) exceeds a
full period. -/
def c9Body (R : Type) [LinearOrderedField R] : Body R :=
  { name := "Comet", parentPlanet := none, distance := 1, orbitSpeed := 7,
    rotationSpeed := 0, angle := 0, position := ⟨1, 0, 0⟩, rotationY := 0,
    fallbackColor := none }

/-- A star-orbiting body whose stored position agrees with its phase
(`cos 0 · 100 = 100`, `sin 0 · 100 = 0`). -/
def c3Body (R : Type) [LinearOrderedField R] : Body R :=
  { name := "Mars", parentPlanet := none, distance := 100, orbitSpeed := 2,
    rotationSpeed := 3, angle := 0, position := ⟨100, 0, 0⟩, rotationY := 5,
    fallbackColor := none }

/-! ### C1 -/

/-- C1: every tick adds `orbitSpeed × timeScale` to a star-orbiting body's
phase and rewrites its position to
`(cos(phase)·radius, 0, sin(phase)·radius)` (the `y` component, set to `0`
at creation, is never changed); iterating, after `n` ticks the phase is the
initial phase plus `n·orbitSpeed·timeScale` and the position is the
trigonometric image of that phase. -/
theorem orbit_tick_phase_position (s : ℝ) (arr : List (Body ℝ)) (b : Body ℝ)
    (hp : b.parentPlanet ≠ some "Earth") (hn : b.name ≠ "Moon")
    (hy : b.position.y = 0) (n : ℕ) :
    ((stepBody ⟨Real.cos, Real.sin⟩ s arr b).angle = b.angle + b.orbitSpeed * s ∧
      (stepBody ⟨Real.cos, Real.sin⟩ s arr b).position =
        ⟨Real.cos (b.angle + b.orbitSpeed * s) * b.distance, 0,
         Real.sin (b.angle + b.orbitSpeed * s) * b.distance⟩) ∧
    ((stepBody ⟨Real.cos, Real.sin⟩ s arr)^[n] b).angle
        = b.angle + n * (b.orbitSpeed * s) ∧
    (0 < n →
      ((stepBody ⟨Real.cos, Real.sin⟩ s arr)^[n] b).position =
        ⟨Real.cos (((stepBody ⟨Real.cos, Real.sin⟩ s arr)^[n] b).angle) * b.distance, 0,
         Real.sin (((stepBody ⟨Real.cos, Real.sin⟩ s arr)^[n] b).angle) * b.distance⟩) := by
  obtain ⟨-, -, -, -, hd, ha, hy', -, hxz⟩ :=
    stepBody_star_iterate ⟨Real.cos, Real.sin⟩ s arr b hp hn n
  refine ⟨⟨?_, ?_⟩, ha, fun hn0 => ?_⟩
  · rw [stepBody_star _ s arr b hp hn]
  · rw [stepBody_star _ s arr b hp hn]
    simp [hy]
  · obtain ⟨hx, hz⟩ := hxz hn0
    exact Vec3.ext hx (hy'.trans hy) hz

/-- Witness for C1: the end-to-end scenario.  After 100 ticks at
`timeScale = 1` the phase is exactly 1 rad and the position is
`(cos 1 · 100, 0, sin 1 · 100)`. -/
theorem orbit_tick_phase_position_witness :
    ((stepBody (⟨Real.cos, Real.sin⟩ : Trig ℝ) 1 [])^[100] (c1Body ℝ)).angle = 1 ∧
    ((stepBody (⟨Real.cos, Real.sin⟩ : Trig ℝ) 1 [])^[100] (c1Body ℝ)).position =
      ⟨Real.cos 1 * 100, 0, Real.sin 1 * 100⟩ := by
  obtain ⟨-, ha, hpos⟩ :=
    orbit_tick_phase_position 1 [] (c1Body ℝ) (by decide) (by decide) rfl 100
  have ha' : ((stepBody (⟨Real.cos, Real.sin⟩ : Trig ℝ) 1 [])^[100] (c1Body ℝ)).angle = 1 := by
    rw [ha]
    norm_num [c1Body]
  refine ⟨ha', ?_⟩
  rw [hpos (by norm_num), ha']
  norm_num [c1Body]

/-! ### C9 -/

/-- C9 (amended): the stored phase is NOT wrapped modulo 2π: after `n`
ticks it is exactly the initial phase plus `n·orbitSpeed·timeScale`, and
for a positive per-tick increment it eventually exceeds every bound. -/
theorem phase_accumulates_without_wrap (s : ℝ) (arr : List (Body ℝ)) (b : Body ℝ)
    (hp : b.parentPlanet ≠ some "Earth") (hn : b.name ≠ "Moon")
    (hpos : 0 < b.orbitSpeed * s) :
    (∀ n : ℕ, ((stepBody ⟨Real.cos, Real.sin⟩ s arr)^[n] b).angle
        = b.angle + n * (b.orbitSpeed * s)) ∧
    ∀ M : ℝ, ∃ n : ℕ, M < ((stepBody ⟨Real.cos, Real.sin⟩ s arr)^[n] b).angle := by
  have ha : ∀ n : ℕ, ((stepBody ⟨Real.cos, Real.sin⟩ s arr)^[n] b).angle
      = b.angle + n * (b.orbitSpeed * s) :=
    fun n => (stepBody_star_iterate ⟨Real.cos, Real.sin⟩ s arr b hp hn n).2.2.2.2.2.1
  refine ⟨ha, fun M => ?_⟩
  obtain ⟨n, hgt⟩ := exists_nat_gt ((M - b.angle) / (b.orbitSpeed * s))
  refine ⟨n, ?_⟩
  rw [ha n]
  rw [div_lt_iff₀ hpos] at hgt
  linarith

/-- Counterexample for C9 as stated: one tick at `timeScale = 1` leaves the
stored phase at 7 rad, which already exceeds the full period 2π — the
update rule does not reduce the accumulated phase modulo 2π. -/
theorem phase_exceeds_period_cex :
    (stepBody (⟨Real.cos, Real.sin⟩ : Trig ℝ) 1 [] (c9Body ℝ)).angle = 7 ∧
    2 * Real.pi ≤ 7 := by
  constructor
  · rw [stepBody_star _ 1 [] _ (by decide) (by decide)]
    norm_num [c9Body]
  · have h := Real.pi_lt_d2
    linarith

/-- Witness for C9's amended theorem, at the same concrete body: the
increment is positive and the phase passes 100 rad after some number of
ticks. -/
theorem phase_accumulates_without_wrap_witness :
    (0 : ℝ) < (c9Body ℝ).orbitSpeed * 1 ∧
    ∃ n : ℕ, 100 < ((stepBody (⟨Real.cos, Real.sin⟩ : Trig ℝ) 1 [])^[n] (c9Body ℝ)).angle := by
  refine ⟨by norm_num [c9Body], ?_⟩
  exact (phase_accumulates_without_wrap 1 [] (c9Body ℝ) (by decide) (by decide)
    (by norm_num [c9Body])).2 100

/-! ### C3 -/

/-- C3 (amended): at `timeScale = 0` every phase angle and every spin
rotation is exactly unchanged by a tick of the body loop, for every state;
and whenever every body's stored position already agrees with its orbital
formula (as the loop itself guarantees from the first tick on), any number
of `timeScale = 0` ticks leaves the whole body list exactly unchanged. -/
theorem timescale_zero_phase_spin_frozen (l : List (Body ℝ))
    (hc : ∀ b ∈ l,
      (b.parentPlanet ≠ some "Earth" → b.name ≠ "Moon" →
        starConsistent ⟨Real.cos, Real.sin⟩ b) ∧
      (b.parentPlanet = some "Earth" → moonConsistent ⟨Real.cos, Real.sin⟩ l b)) :
    (∀ n : ℕ, (fun x => animateLoop (⟨Real.cos, Real.sin⟩ : Trig ℝ) 0 [] x)^[n] l = l) ∧
    ∀ l' : List (Body ℝ),
      (animateLoop (⟨Real.cos, Real.sin⟩ : Trig ℝ) 0 [] l').map Body.angle
          = l'.map Body.angle ∧
      (animateLoop (⟨Real.cos, Real.sin⟩ : Trig ℝ) 0 [] l').map Body.rotationY
          = l'.map Body.rotationY := by
  refine ⟨fun n => Function.iterate_fixed (animateLoop_zero_id _ l hc) n, fun l' => ⟨?_, ?_⟩⟩
  · simpa using animateLoop_zero_angles ⟨Real.cos, Real.sin⟩ l' []
  · simpa using animateLoop_zero_rotations ⟨Real.cos, Real.sin⟩ l' []

/-- Counterexample for C3 as stated: a planet exactly as `loadPlanet`
creates it (position `(100, 0, 0)`, pseudo-random initial phase — here π)
is moved by the very first `timeScale = 0` tick: its position `x` is
rewritten from 100 to `cos π · 100 = -100`. -/
theorem timescale_zero_first_tick_cex :
    ((animateLoop (⟨Real.cos, Real.sin⟩ : Trig ℝ) 0 []
        (loadPlanet ℝ .success "Mars" 100 0 0 Real.pi [])).map fun b => b.position.x)
      = [-100] ∧
    ((loadPlanet ℝ .success "Mars" 100 0 0 Real.pi []).map fun b => b.position.x)
      = [100] ∧
    (-100 : ℝ) ≠ 100 := by
  refine ⟨?_, by norm_num [loadPlanet, registerBody], by norm_num⟩
  rw [show (loadPlanet ℝ .success "Mars" 100 0 0 Real.pi []) =
      [{ name := "Mars", parentPlanet := none, distance := 100, orbitSpeed := 0,
         rotationSpeed := 0, angle := Real.pi, position := ⟨100, 0, 0⟩, rotationY := 0,
         fallbackColor := none }] from rfl]
  rw [animateLoop, animateLoop,
    stepBody_star _ 0 _ _ (by decide) (by decide)]
  norm_num [Real.cos_pi]

/-- Witness for C3: a consistent one-planet state is bit-identically fixed
by five `timeScale = 0` ticks. -/
theorem timescale_zero_phase_spin_frozen_witness :
    (fun x => animateLoop (⟨Real.cos, Real.sin⟩ : Trig ℝ) 0 [] x)^[5] [c3Body ℝ]
      = [c3Body ℝ] := by
  refine (timescale_zero_phase_spin_frozen [c3Body ℝ] ?_).1 5
  intro b hb
  rw [List.mem_singleton] at hb
  subst hb
  refine ⟨fun _ _ => ⟨?_, ?_⟩, fun h => ?_⟩
  · norm_num [c3Body, starConsistent]
  · norm_num [c3Body, starConsistent]
  · simp [c3Body] at h

/-! ### C2 -/

theorem findByName_append_some (nm : String) (l₁ l₂ : List (Body R)) (x : Body R)
    (h : findByName nm l₁ = some x) :
    findByName nm (l₁ ++ l₂) = some x := by
  rw [findByName_append, h]

theorem findByName_append_none (nm : String) (l₁ l₂ : List (Body R))
    (h : findByName nm l₁ = none) :
    findByName nm (l₁ ++ l₂) = findByName nm l₂ := by
  rw [findByName_append, h]

/-- The Earth body as `loadPlanet`'s success callback creates it:
`distance 100`, `orbitSpeed 0.01`, `rotationSpeed 0.01`,
position `(100, 0, 0)` (shown here with initial phase 0). -/
def earthBody (R : Type) [LinearOrderedField R] : Body R :=
  { name := "Earth", parentPlanet := none, distance := 100, orbitSpeed := 1 / 100,
    rotationSpeed := 1 / 100, angle := 0, position := ⟨100, 0, 0⟩, rotationY := 0,
    fallbackColor := none }

/-- An Earth body with initial phase 0 whose per-tick phase increment `w`
is left as a parameter (instantiated with π in the counterexample so the
trigonometry stays exact). -/
def cexEarth (R : Type) [LinearOrderedField R] (w : R) : Body R :=
  { name := "Earth", parentPlanet := none, distance := 100, orbitSpeed := w,
    rotationSpeed := 0, angle := 0, position := ⟨100, 0, 0⟩, rotationY := 0,
    fallbackColor := none }

/-- C2 (amended): when the first body named `"Earth"` precedes the moon in
the registration order, a tick updates Earth first and the moon's
resulting position is Earth's same-tick-updated position plus the moon's
own orbit-offset vector.  (The order-independence half of the claim is
refuted by `moon_before_earth_stale_cex`.) -/
theorem moon_position_after_earth_update (s : ℝ) (l₁ l₂ l₃ : List (Body ℝ))
    (earth moon : Body ℝ)
    (h₁ : ∀ b ∈ l₁, b.name ≠ "Earth")
    (he : earth.name = "Earth")
    (hep : earth.parentPlanet ≠ some "Earth")
    (hm : moon.parentPlanet = some "Earth") :
    ∃ (u₁ u₂ u₃ : List (Body ℝ)) (e' m' : Body ℝ),
      animateLoop (⟨Real.cos, Real.sin⟩ : Trig ℝ) s []
          (l₁ ++ earth :: (l₂ ++ moon :: l₃))
        = u₁ ++ e' :: (u₂ ++ m' :: u₃) ∧
      u₁.length = l₁.length ∧ u₂.length = l₂.length ∧
      e'.angle = earth.angle + earth.orbitSpeed * s ∧
      e'.position.x = Real.cos e'.angle * earth.distance ∧
      e'.position.z = Real.sin e'.angle * earth.distance ∧
      m'.angle = moon.angle + moon.orbitSpeed * s ∧
      m'.position.x = e'.position.x + Real.cos m'.angle * moon.distance ∧
      m'.position.y = e'.position.y ∧
      m'.position.z = e'.position.z + Real.sin m'.angle * moon.distance := by
  set T : Trig ℝ := ⟨Real.cos, Real.sin⟩ with hT
  have hne : earth.name ≠ "Moon" := by rw [he]; decide
  obtain ⟨u₁, h1, hn1⟩ :=
    animateLoop_segment T s l₁ [] (earth :: (l₂ ++ moon :: l₃))
  rw [List.nil_append] at h1
  rw [animateLoop] at h1
  set e' := stepBody T s (u₁ ++ earth :: (l₂ ++ moon :: l₃)) earth with he'def
  have heq : e' =
      { earth with
        angle := earth.angle + earth.orbitSpeed * s
        position :=
          ⟨T.cost (earth.angle + earth.orbitSpeed * s) * earth.distance,
           earth.position.y,
           T.sint (earth.angle + earth.orbitSpeed * s) * earth.distance⟩
        rotationY := earth.rotationY + earth.rotationSpeed * s } :=
    stepBody_star T s _ earth hep hne
  have hu₁E : ∀ b ∈ u₁, b.name ≠ "Earth" := by
    intro b hb
    have hmem : b.name ∈ u₁.map Body.name := List.mem_map_of_mem Body.name hb
    rw [hn1] at hmem
    obtain ⟨c, hc, hcb⟩ := List.mem_map.mp hmem
    rw [← hcb]
    exact h₁ c hc
  obtain ⟨u₂, h2, hn2⟩ := animateLoop_segment T s l₂ (u₁ ++ [e']) (moon :: l₃)
  rw [animateLoop] at h2
  set m' := stepBody T s ((u₁ ++ [e']) ++ u₂ ++ moon :: l₃) moon with hm'def
  have hfind : findByName "Earth" ((u₁ ++ [e']) ++ u₂ ++ moon :: l₃) = some e' := by
    have hname : e'.name = "Earth" := (stepBody_name T s _ earth).trans he
    have h0 : findByName "Earth" (u₁ ++ [e']) = some e' := by
      rw [findByName_append_none "Earth" u₁ [e'] (findByName_none u₁ hu₁E)]
      unfold findByName
      simp [List.find?, hname]
    exact findByName_append_some _ _ _ _ (findByName_append_some _ _ _ _ h0)
  have hmq : m' =
      { moon with
        angle := moon.angle + moon.orbitSpeed * s
        position :=
          ⟨e'.position.x + T.cost (moon.angle + moon.orbitSpeed * s) * moon.distance,
           e'.position.y,
           e'.position.z + T.sint (moon.angle + moon.orbitSpeed * s) * moon.distance⟩
        rotationY := moon.rotationY + moon.rotationSpeed * s } :=
    stepBody_moon T s _ moon hm e' hfind
  obtain ⟨u₃, h3, -⟩ := animateLoop_done_part T s l₃ (((u₁ ++ [e']) ++ u₂) ++ [m'])
  refine ⟨u₁, u₂, u₃, e', m', ?_, ?_, ?_, ?_, ?_, ?_, ?_, ?_, ?_, ?_⟩
  · rw [h1, h2, h3]
    simp
  · simpa using congrArg List.length hn1
  · simpa using congrArg List.length hn2
  · rw [heq]
  · rw [heq]
  · rw [heq]
  · rw [hmq]
  · rw [hmq]
  · rw [hmq]
  · rw [hmq]

/-- Counterexample for C2 as stated: with the registration order
`[Moon, Earth]` (the load callbacks are asynchronous, so this order is
possible) the moon is processed first and reads Earth's stale position
(x = 100). Its resulting x is `100 + cos(0.036)·8`, whereas the claim's
formula — Earth's same-tick-updated position plus the offset — would give
`-100 + cos(0.036)·8`: the claim fails for this registration order. -/
theorem moon_before_earth_stale_cex :
    ((animateLoop (⟨Real.cos, Real.sin⟩ : Trig ℝ) 1 [] [moonBody ℝ, cexEarth ℝ Real.pi]).map
        fun b => b.position.x)
      = [100 + Real.cos (36 / 1000) * 8, -100] ∧
    100 + Real.cos ((36 : ℝ) / 1000) * 8 ≠ -100 + Real.cos ((36 : ℝ) / 1000) * 8 := by
  constructor
  · have hmoon : stepBody (⟨Real.cos, Real.sin⟩ : Trig ℝ) 1
        [moonBody ℝ, cexEarth ℝ Real.pi] (moonBody ℝ)
        = { moonBody ℝ with
            angle := (moonBody ℝ).angle + (moonBody ℝ).orbitSpeed * 1
            position :=
              ⟨(cexEarth ℝ Real.pi).position.x +
                 Real.cos ((moonBody ℝ).angle + (moonBody ℝ).orbitSpeed * 1) * (moonBody ℝ).distance,
               (cexEarth ℝ Real.pi).position.y,
               (cexEarth ℝ Real.pi).position.z +
                 Real.sin ((moonBody ℝ).angle + (moonBody ℝ).orbitSpeed * 1) * (moonBody ℝ).distance⟩
            rotationY := (moonBody ℝ).rotationY + (moonBody ℝ).rotationSpeed * 1 } := by
      refine stepBody_moon _ 1 _ _ (by decide) _ ?_
      simp [findByName, List.find?, moonBody, cexEarth]
    simp only [animateLoop, List.nil_append, List.cons_append]
    rw [hmoon, stepBody_star _ 1 _ _ (by decide) (by decide)]
    norm_num [moonBody, cexEarth, Real.cos_pi]
  · intro h
    linarith

/-- Witness for C2's amended theorem: the actual Earth and Moon bodies, with
Earth registered first. -/
theorem moon_position_after_earth_update_witness :
    (∀ b ∈ ([] : List (Body ℝ)), b.name ≠ "Earth") ∧
    ∃ (u₁ u₂ u₃ : List (Body ℝ)) (e' m' : Body ℝ),
      animateLoop (⟨Real.cos, Real.sin⟩ : Trig ℝ) 1 []
          ([] ++ earthBody ℝ :: ([] ++ moonBody ℝ :: []))
        = u₁ ++ e' :: (u₂ ++ m' :: u₃) ∧
      u₁.length = List.length ([] : List (Body ℝ)) ∧
      u₂.length = List.length ([] : List (Body ℝ)) ∧
      e'.angle = (earthBody ℝ).angle + (earthBody ℝ).orbitSpeed * 1 ∧
      e'.position.x = Real.cos e'.angle * (earthBody ℝ).distance ∧
      e'.position.z = Real.sin e'.angle * (earthBody ℝ).distance ∧
      m'.angle = (moonBody ℝ).angle + (moonBody ℝ).orbitSpeed * 1 ∧
      m'.position.x = e'.position.x + Real.cos m'.angle * (moonBody ℝ).distance ∧
      m'.position.y = e'.position.y ∧
      m'.position.z = e'.position.z + Real.sin m'.angle * (moonBody ℝ).distance := by
  refine ⟨fun b hb => absurd hb (List.not_mem_nil b), ?_⟩
  exact moon_position_after_earth_update 1 [] [] [] (earthBody ℝ) (moonBody ℝ)
    (fun b hb => absurd hb (List.not_mem_nil b)) rfl (by decide) rfl

/-! ### C5: camera follow -/

theorem distSq_nonneg (a b : Vec3 R) : 0 ≤ distSq a b := by
  unfold distSq
  positivity

theorem cameraFollowStep_dist (target cam : Vec3 R) :
    distSq (vadd target (followOffset R)) (cameraFollowStep target cam)
      = (19 / 20) ^ 2 * distSq (vadd target (followOffset R)) cam := by
  obtain ⟨tx, ty, tz⟩ := target
  obtain ⟨cx, cy, cz⟩ := cam
  simp only [distSq, cameraFollowStep, lerpVec, vadd, followOffset]
  ring

theorem cameraFollowStep_iter_dist (target cam : Vec3 R) (n : ℕ) :
    distSq (vadd target (followOffset R)) ((cameraFollowStep target)^[n] cam)
      = ((19 / 20) ^ 2) ^ n * distSq (vadd target (followOffset R)) cam := by
  induction n with
  | zero => simp
  | succ n ih =>
    rw [Function.iterate_succ_apply', cameraFollowStep_dist, ih]
    ring

theorem cameraFollowStep_ne (target cam : Vec3 R)
    (h : cam ≠ vadd target (followOffset R)) :
    cameraFollowStep target cam ≠ vadd target (followOffset R) := by
  intro heq
  apply h
  obtain ⟨tx, ty, tz⟩ := target
  obtain ⟨cx, cy, cz⟩ := cam
  simp only [cameraFollowStep, lerpVec, vadd, followOffset, Vec3.mk.injEq] at heq ⊢
  obtain ⟨h1, h2, h3⟩ := heq
  refine ⟨by linarith, by linarith, by linarith⟩

/-- C5: the camera-follow step is a fixed-factor (0.05) linear
interpolation toward `target.position + (50,30,50)`: for a stationary
target the squared distance to that point contracts by exactly `(0.95)²`
each tick, hence drops below any positive tolerance after finitely many
ticks, and a camera that does not start at the point never reaches it
exactly. -/
theorem camera_follow_geometric_convergence (target cam : Vec3 ℝ) (ε : ℝ)
    (hε : 0 < ε) (hne : cam ≠ vadd target (followOffset ℝ)) :
    distSq (vadd target (followOffset ℝ)) (cameraFollowStep target cam)
        = ((19 : ℝ) / 20) ^ 2 * distSq (vadd target (followOffset ℝ)) cam ∧
    (∃ N : ℕ, ∀ n : ℕ, N ≤ n →
      distSq (vadd target (followOffset ℝ)) ((cameraFollowStep target)^[n] cam) < ε) ∧
    ∀ n : ℕ, (cameraFollowStep target)^[n] cam ≠ vadd target (followOffset ℝ) := by
  refine ⟨cameraFollowStep_dist target cam, ?_, ?_⟩
  · have hd0 : 0 ≤ distSq (vadd target (followOffset ℝ)) cam := distSq_nonneg _ _
    have hq0 : (0 : ℝ) ≤ (19 / 20) ^ 2 := by positivity
    have hq1 : ((19 : ℝ) / 20) ^ 2 < 1 := by norm_num
    have hpos : (0 : ℝ) < distSq (vadd target (followOffset ℝ)) cam + 1 := by linarith
    obtain ⟨N, hN⟩ := exists_pow_lt_of_lt_one (div_pos hε hpos) hq1
    refine ⟨N, fun n hn => ?_⟩
    rw [cameraFollowStep_iter_dist]
    calc ((19 / 20 : ℝ) ^ 2) ^ n * distSq (vadd target (followOffset ℝ)) cam
        ≤ ((19 / 20 : ℝ) ^ 2) ^ N * distSq (vadd target (followOffset ℝ)) cam :=
          mul_le_mul_of_nonneg_right (pow_le_pow_of_le_one hq0 (le_of_lt hq1) hn) hd0
      _ ≤ ε / (distSq (vadd target (followOffset ℝ)) cam + 1) *
            distSq (vadd target (followOffset ℝ)) cam :=
          mul_le_mul_of_nonneg_right (le_of_lt hN) hd0
      _ < ε := by
          rw [div_mul_eq_mul_div, div_lt_iff₀ hpos]
          nlinarith [div_pos hε hpos]
  · intro n
    induction n with
    | zero => simpa using hne
    | succ n ih =>
      rw [Function.iterate_succ_apply']
      exact cameraFollowStep_ne target _ ih

/-- Witness for C5: a camera at `(1,2,3)` following a stationary target at
the origin never exactly reaches `(50,30,50)`. -/
theorem camera_follow_geometric_convergence_witness :
    (0 : ℝ) < 1 / 2 ∧
    (⟨1, 2, 3⟩ : Vec3 ℝ) ≠ vadd ⟨0, 0, 0⟩ (followOffset ℝ) ∧
    ∀ n : ℕ, (cameraFollowStep (⟨0, 0, 0⟩ : Vec3 ℝ))^[n] ⟨1, 2, 3⟩
      ≠ vadd ⟨0, 0, 0⟩ (followOffset ℝ) := by
  have h1 : (0 : ℝ) < 1 / 2 := by norm_num
  have h2 : (⟨1, 2, 3⟩ : Vec3 ℝ) ≠ vadd ⟨0, 0, 0⟩ (followOffset ℝ) := by
    simp only [vadd, followOffset, ne_eq, Vec3.mk.injEq]
    norm_num
  exact ⟨h1, h2,
    (camera_follow_geometric_convergence ⟨0, 0, 0⟩ ⟨1, 2, 3⟩ (1 / 2) h1 h2).2.2⟩

/-! ### C6: ring rotation -/

/-- The Saturn D-ring segment descriptor (`speed: 0.008`), at rotation 0. -/
def ringSegD (R : Type) [LinearOrderedField R] : RingSeg R :=
  { rotZ := 0, rotationSpeed := 8 / 1000 }

/-- The Venus body as `loadPlanet` creates it: retrograde spin
(`rotationSpeed: -0.002`), distance 70, orbitSpeed 0.015. -/
def venusBody (R : Type) [LinearOrderedField R] : Body R :=
  { name := "Venus", parentPlanet := none, distance := 70, orbitSpeed := 15 / 1000,
    rotationSpeed := -(2 / 1000), angle := 0, position := ⟨70, 0, 0⟩, rotationY := 0,
    fallbackColor := none }

/-- C6: in a tick with positive time-scale, a ring segment's rotation
changes by exactly `speed × timeScale` — an expression free of the owning
planet's spin — so a positive-speed segment strictly increases even while
a retrograde planet's own spin strictly decreases (opposing senses). -/
theorem ring_rotation_independent_of_spin (s : ℝ) (ring : RingSeg ℝ)
    (planet : Body ℝ) (arr : List (Body ℝ))
    (hs : 0 < s) (hr : 0 < ring.rotationSpeed) (hneg : planet.rotationSpeed < 0) :
    (stepRing s ring).rotZ = ring.rotZ + ring.rotationSpeed * s ∧
    ring.rotZ < (stepRing s ring).rotZ ∧
    (stepBody ⟨Real.cos, Real.sin⟩ s arr planet).rotationY < planet.rotationY := by
  have h1 : (stepRing s ring).rotZ = ring.rotZ + ring.rotationSpeed * s := by
    unfold stepRing
    rw [if_neg (ne_of_gt hr)]
  refine ⟨h1, ?_, ?_⟩
  · rw [h1]
    linarith [mul_pos hr hs]
  · rw [stepBody_rotationY]
    linarith [mul_neg_of_neg_of_pos hneg hs]

/-- Witness for C6: the D-ring segment on retrograde Venus at
`timeScale = 1`. -/
theorem ring_rotation_independent_of_spin_witness :
    (0 : ℝ) < 1 ∧ (0 : ℝ) < (ringSegD ℝ).rotationSpeed ∧
    (venusBody ℝ).rotationSpeed < 0 ∧
    (stepRing 1 (ringSegD ℝ)).rotZ
        = (ringSegD ℝ).rotZ + (ringSegD ℝ).rotationSpeed * 1 ∧
    (ringSegD ℝ).rotZ < (stepRing 1 (ringSegD ℝ)).rotZ ∧
    (stepBody ⟨Real.cos, Real.sin⟩ 1 [] (venusBody ℝ)).rotationY
      < (venusBody ℝ).rotationY := by
  have h1 : (0 : ℝ) < 1 := by norm_num
  have h2 : (0 : ℝ) < (ringSegD ℝ).rotationSpeed := by norm_num [ringSegD]
  have h3 : (venusBody ℝ).rotationSpeed < 0 := by norm_num [venusBody]
  obtain ⟨a, b, c⟩ := ring_rotation_independent_of_spin 1 (ringSegD ℝ) (venusBody ℝ) []
    h1 h2 h3
  exact ⟨h1, h2, h3, a, b, c⟩

/-! ### C4: the pause gate -/

/-- A paused scheduler state holding the moon body. -/
def pausedSys (R : Type) [LinearOrderedField R] : SolarSystemState R :=
  { planets := [moonBody R], saturnRings := [], animationSpeed := 1, isPaused := true,
    followTarget := none, cameraPos := ⟨0, 0, 0⟩, sunRotY := 0, renderCount := 0 }

/-- C4 (amended): when `isPaused` is set, the callback leaves the whole
state — every phase, position, rotation, and also the render counter —
exactly unchanged: it performs no kinematic updates and issues no render
call either. -/
theorem paused_tick_state_unchanged (T : Trig ℝ) (s : SolarSystemState ℝ)
    (h : s.isPaused = true) :
    animateTick T s = s ∧ (animateTick T s).renderCount = s.renderCount := by
  have heq : animateTick T s = s := by
    unfold animateTick
    rw [if_pos h]
  exact ⟨heq, by rw [heq]⟩

/-- Counterexample for C4 as stated: on a concrete paused state the
callback does NOT issue a render call — the render counter stays at 0
instead of incrementing — because `animate` returns before the
`renderer.render` line when `isPaused` is set. -/
theorem paused_tick_no_render_cex :
    animateTick (⟨Real.cos, Real.sin⟩ : Trig ℝ) (pausedSys ℝ) = pausedSys ℝ ∧
    (animateTick (⟨Real.cos, Real.sin⟩ : Trig ℝ) (pausedSys ℝ)).renderCount
      ≠ (pausedSys ℝ).renderCount + 1 := by
  have h : animateTick (⟨Real.cos, Real.sin⟩ : Trig ℝ) (pausedSys ℝ) = pausedSys ℝ := by
    unfold animateTick
    rw [if_pos (show (pausedSys ℝ).isPaused = true from rfl)]
  refine ⟨h, ?_⟩
  rw [h]
  simp [pausedSys]

/-- Witness for C4's amended theorem at the concrete paused state. -/
theorem paused_tick_state_unchanged_witness :
    (pausedSys ℝ).isPaused = true ∧
    animateTick (⟨Real.cos, Real.sin⟩ : Trig ℝ) (pausedSys ℝ) = pausedSys ℝ :=
  ⟨rfl, (paused_tick_state_unchanged ⟨Real.cos, Real.sin⟩ (pausedSys ℝ) rfl).1⟩

/-! ### C7: the speed input -/

/-- A running (not paused) scheduler state at the prior valid speed 1. -/
def runningSys (R : Type) [LinearOrderedField R] : SolarSystemState R :=
  { planets := [earthBody R], saturnRings := [], animationSpeed := 1, isPaused := false,
    followTarget := none, cameraPos := ⟨0, 0, 0⟩, sunRotY := 0, renderCount := 0 }

/-- C7 (amended): the speed-slider handler stores whatever value it is
given — negative included — with no boundary check: the stored time-scale
equals the incoming value, it is unchanged only when the new value already
equals the old one, and the next tick's kinematics use the new value. -/
theorem speed_input_stores_any_value (T : Trig ℝ) (sys : SolarSystemState ℝ) (v : ℝ) :
    (handleSpeedInput sys v).animationSpeed = v ∧
    (handleSpeedInput sys v).planets = sys.planets ∧
    ((handleSpeedInput sys v).animationSpeed = sys.animationSpeed ↔ v = sys.animationSpeed) ∧
    (sys.isPaused = false →
      (animateTick T (handleSpeedInput sys v)).planets = animateLoop T v [] sys.planets) := by
  refine ⟨rfl, rfl, Iff.rfl, fun h => ?_⟩
  unfold animateTick handleSpeedInput
  simp [h]

/-- Counterexample for C7 as stated: the handler invoked with `-2` on a
state whose prior valid time-scale is `1` stores `-2` — the prior value is
not retained, nothing is rejected. -/
theorem negative_timescale_stored_cex :
    (handleSpeedInput (runningSys ℝ) (-2)).animationSpeed = -2 ∧
    (runningSys ℝ).animationSpeed = 1 ∧
    (-2 : ℝ) ≠ 1 :=
  ⟨rfl, rfl, by norm_num⟩

/-- Witness for C7's amended theorem: after storing `-2`, the next tick
runs the body loop at time-scale `-2`. -/
theorem speed_input_stores_any_value_witness :
    (runningSys ℝ).isPaused = false ∧
    (animateTick (⟨Real.cos, Real.sin⟩ : Trig ℝ)
        (handleSpeedInput (runningSys ℝ) (-2))).planets
      = animateLoop (⟨Real.cos, Real.sin⟩ : Trig ℝ) (-2) [] (runningSys ℝ).planets :=
  ⟨rfl, (speed_input_stores_any_value ⟨Real.cos, Real.sin⟩ (runningSys ℝ) (-2)).2.2.2 rfl⟩

/-! ### C8: duplicate registration -/

/-- C8 (amended): registration appends unconditionally: a body whose
identifier is already present is appended anyway (the registry grows, so
the call is NOT rejected), while the existing body is not overwritten —
every previously stored entry is untouched and find-by-identifier still
returns the original first match. -/
theorem register_duplicate_appends_keeps_original (l : List (Body ℝ)) (b c : Body ℝ)
    (h : findByName b.name l = some c) :
    registerBody l b ≠ l ∧
    (registerBody l b).length = l.length + 1 ∧
    findByName b.name (registerBody l b) = some c ∧
    ∀ i : ℕ, i < l.length → (registerBody l b)[i]? = l[i]? := by
  refine ⟨?_, by simp [registerBody], findByName_append_some _ _ _ _ h, fun i hi => ?_⟩
  · intro heq
    have hlen := congrArg List.length heq
    simp [registerBody] at hlen
  · unfold registerBody
    exact List.getElem?_append_left hi

/-- Counterexample for C8 as stated: registering a second body named
`"Earth"` is not rejected — the registry grows to two entries with the
same identifier. -/
theorem duplicate_identifier_appended_cex :
    registerBody [earthBody ℝ] (cexEarth ℝ 5) = [earthBody ℝ, cexEarth ℝ 5] ∧
    registerBody [earthBody ℝ] (cexEarth ℝ 5) ≠ [earthBody ℝ] ∧
    (registerBody [earthBody ℝ] (cexEarth ℝ 5)).countP (fun b => b.name == "Earth") = 2 := by
  refine ⟨rfl, ?_, ?_⟩
  · intro h
    have hlen := congrArg List.length h
    simp [registerBody] at hlen
  · rfl

/-- Witness for C8's amended theorem: the duplicate `"Earth"` registration,
where lookup still returns the original. -/
theorem register_duplicate_appends_keeps_original_witness :
    findByName (cexEarth ℝ 5).name [earthBody ℝ] = some (earthBody ℝ) ∧
    findByName (cexEarth ℝ 5).name (registerBody [earthBody ℝ] (cexEarth ℝ 5))
      = some (earthBody ℝ) :=
  ⟨rfl, (register_duplicate_appends_keeps_original [earthBody ℝ] (cexEarth ℝ 5)
    (earthBody ℝ) rfl).2.2.1⟩

/-! ### C10: moon texture failure -/

/-- C10: if the Moon texture fails to load, `createMoon`'s error callback
registers nothing at all — the registry is exactly unchanged and no
fallback-colored Moon exists — while `loadPlanet`'s failure path still
registers the planet, carrying the documented fallback color for its name;
on success `createMoon` registers the textured moon. -/
theorem moon_texture_failure_no_registration (planets : List (Body ℝ)) (name : String)
    (d os rs a : ℝ) :
    createMoon ℝ .failure planets = planets ∧
    (∀ b ∈ createMoon ℝ .failure planets, b ∈ planets) ∧
    createMoon ℝ .success planets = planets ++ [moonBody ℝ] ∧
    ∃ b : Body ℝ, loadPlanet ℝ .failure name d os rs a planets = planets ++ [b] ∧
      b.name = name ∧ b.fallbackColor = some (fallbackColors name) ∧
      b.position = ⟨d, 0, 0⟩ ∧ b.orbitSpeed = os :=
  ⟨rfl, fun _ hb => hb, rfl, ⟨_, rfl, rfl, rfl, rfl, rfl⟩⟩

end VantraOrbit
